import Mathlib

/-
Verification development for the notebook `doc/Working_with_Bokeh.ipynb`.

The notebook is a linear sequence of code cells. The embedding below records,
for every statement of every code cell: the names it binds, the names it reads
from the kernel environment, the files it loads or writes, and the syntactic
constructs it contains. On top of that it models the `tiles` dictionary with
its URL template strings, a small-step execution semantics of the cell
sequence, and the choropleth join of shapefile records against the referendum
table.
-/

namespace GVBokeh

/-- A Bokeh WMTS tile source: a URL template string wrapped in a value object,
as constructed by `WMTSTileSource(url=...)` in the notebook's tiles cell. -/
structure WMTSTileSource where
  url : String
  deriving DecidableEq

/-- URL template of the OpenMap entry of the tiles dictionary. -/
def openMapUrl : String := "http://c.tile.openstreetmap.org/{Z}/{X}/{Y}.png"

/-- URL template of the ESRI entry of the tiles dictionary. -/
def esriUrl : String :=
  "https://server.arcgisonline.com/ArcGIS/rest/services/World_Imagery/MapServer/tile/{Z}/{Y}/{X}.jpg"

/-- URL template of the Wikipedia entry of the tiles dictionary. -/
def wikipediaUrl : String := "https://maps.wikimedia.org/osm-intl/{Z}/{X}/{Y}@2x.png"

/-- Modelled from the spec: the `STAMEN_TONER` constant imported from
`bokeh.tile_providers`, a library whose code is not part of this repository.
The spec describes every entry of the tile collection as a URL template string
wrapped in a tile-source value object, and bokeh ships this constant as such a
wrapped Stamen Toner URL template. -/
def STAMEN_TONER : WMTSTileSource :=
  ⟨"http://tile.stamen.com/toner/{Z}/{X}/{Y}.png"⟩

/-- The `tiles` dictionary built in the notebook's fourth cell: four named
tile sources, three constructed in place from URL strings and one imported
from bokeh. -/
def tiles : List (String × WMTSTileSource) :=
  [("OpenMap", ⟨openMapUrl⟩),
   ("ESRI", ⟨esriUrl⟩),
   ("Wikipedia", ⟨wikipediaUrl⟩),
   ("Stamen Toner", STAMEN_TONER)]

/-- Test whether the character list `p` is an initial segment of `s`. -/
def isPre : List Char → List Char → Bool
  | [], _ => true
  | _ :: _, [] => false
  | p :: ps, c :: cs => p == c && isPre ps cs

/-- Number of positions of `s` at which the pattern `p` occurs. -/
def occsAux (p : List Char) : List Char → Nat
  | [] => 0
  | c :: cs => (if isPre p (c :: cs) then 1 else 0) + occsAux p cs

/-- Number of occurrences of the pattern string `p` inside `s`. -/
def countOccs (p s : String) : Nat := occsAux p.toList s.toList

/-- Index of the first position of `s` at which `p` occurs, if any. -/
def firstIdxAux (p : List Char) : List Char → Nat → Option Nat
  | [], _ => none
  | c :: cs, i => if isPre p (c :: cs) then some i else firstIdxAux p cs (i + 1)

/-- Index of the first occurrence of the pattern `p` inside `s`, if any. -/
def firstIdx (p s : String) : Option Nat := firstIdxAux p.toList s.toList 0

/-- Both patterns occur in `s`, and the first occurrence of `p` is strictly
before the first occurrence of `q`. -/
def beforeIn (p q s : String) : Bool :=
  match firstIdx p s, firstIdx q s with
  | some i, some j => Nat.blt i j
  | _, _ => false

/-- A tile URL template: an http or https URL containing the zoom, column and
row placeholders. -/
def isUrlTemplate (u : String) : Bool :=
  (isPre "http://".toList u.toList || isPre "https://".toList u.toList)
    && Nat.blt 0 (countOccs "{Z}" u)
    && Nat.blt 0 (countOccs "{X}" u)
    && Nat.blt 0 (countOccs "{Y}" u)

/-- One Python statement of a notebook code cell, abstracted to the facts the
claims are about: the names it binds, the names it reads from the kernel
environment (a statement's reads are evaluated before its own bindings take
effect), the files it loads or writes, whether it mutates an existing object
in place or prints to the console, and which non-straight-line syntactic
constructs it contains. -/
structure Stmt where
  binds : List String := []
  reads : List String := []
  fileReads : List String := []
  fileWrites : List String := []
  mutatesInPlace : Bool := false
  printsOutput : Bool := false
  hasConditional : Bool := false
  hasForStmt : Bool := false
  hasWhileStmt : Bool := false
  hasComprehension : Bool := false
  spawnsThread : Bool := false
  deriving DecidableEq

/-- Cell 1, statement 1: the import block binding the library aliases and the
two names imported from bokeh. -/
def importsStmt : Stmt :=
  { binds := ["xr", "np", "pd", "hv", "gv", "gf", "cartopy", "ccrs",
              "STAMEN_TONER", "WMTSTileSource"] }

/-- Cell 1, statement 2: `hv.notebook_extension('bokeh')`. -/
def extensionStmt : Stmt := { reads := ["hv"] }

/-- Cell 2: the dict display building `tiles` from three `WMTSTileSource`
constructor calls and the imported `STAMEN_TONER` constant. -/
def tilesStmt : Stmt :=
  { binds := ["tiles"], reads := ["WMTSTileSource", "STAMEN_TONER"] }

/-- Cell 3: `hv.NdLayout({... for name, wmts in tiles.items()}, ...)` — the
layout is built by a dict comprehension iterating over the tiles dictionary. -/
def layoutStmt : Stmt :=
  { reads := ["hv", "gv", "tiles", "ccrs"], hasComprehension := true }

/-- Cell 4, statement 1: `cities = pd.read_csv('./assets/cities.csv', ...)`. -/
def citiesLoadStmt : Stmt :=
  { binds := ["cities"], reads := ["pd"], fileReads := ["./assets/cities.csv"] }

/-- Cell 4, statement 2: `population = gv.Dataset(cities, kdims=[...])`. -/
def populationStmt : Stmt := { binds := ["population"], reads := ["gv", "cities"] }

/-- Cell 4, statement 3: `cities.head()`. -/
def citiesHeadStmt : Stmt := { reads := ["cities"] }

/-- Cell 5: the overlay of `gv.WMTS(tiles['Wikipedia'])` with
`population.to(gv.Points, ...)`. -/
def pointsOverlayStmt : Stmt := { reads := ["gv", "tiles", "population", "ccrs"] }

/-- Cell 6, statement 1: `shapefile = './assets/boundaries/boundaries.shp'`. -/
def shapefilePathStmt : Stmt := { binds := ["shapefile"] }

/-- Cell 6, statement 2: `shapes = cartopy.io.shapereader.Reader(shapefile)`. -/
def shapesStmt : Stmt :=
  { binds := ["shapes"], reads := ["cartopy", "shapefile"],
    fileReads := ["./assets/boundaries/boundaries.shp"] }

/-- Cell 6, statement 3: `referendum = pd.read_csv('./assets/referendum.csv')`. -/
def referendumLoadStmt : Stmt :=
  { binds := ["referendum"], reads := ["pd"],
    fileReads := ["./assets/referendum.csv"] }

/-- Cell 6, statement 4: `referendum = hv.Dataset(referendum)` — a rebinding of
the name, not an in-place mutation of the loaded table. -/
def referendumDatasetStmt : Stmt :=
  { binds := ["referendum"], reads := ["hv", "referendum"] }

/-- Cell 7: `gv.Shape.from_records(shapes.records(), referendum, on='code', ...)`. -/
def choroplethStmt : Stmt := { reads := ["gv", "shapes", "referendum", "ccrs"] }

/-- Cell 8, statement 1: `dataset = xr.open_dataset('./sample-data/pre-industrial.nc')`. -/
def rasterLoadStmt : Stmt :=
  { binds := ["dataset"], reads := ["xr"],
    fileReads := ["./sample-data/pre-industrial.nc"] }

/-- Cell 8, statement 2: `air_temperature = gv.Dataset(dataset, ...)`. -/
def airTemperatureStmt : Stmt :=
  { binds := ["air_temperature"], reads := ["gv", "dataset", "ccrs"] }

/-- Cell 8, statement 3: `air_temperature.to.image() * gf.coastline`. -/
def imageOverlayStmt : Stmt := { reads := ["air_temperature", "gf"] }

/-- The notebook's code cells in top-to-bottom order, each a list of its
statements in source order. -/
def notebookCells : List (List Stmt) :=
  [[importsStmt, extensionStmt],
   [tilesStmt],
   [layoutStmt],
   [citiesLoadStmt, populationStmt, citiesHeadStmt],
   [pointsOverlayStmt],
   [shapefilePathStmt, shapesStmt, referendumLoadStmt, referendumDatasetStmt],
   [choroplethStmt],
   [rasterLoadStmt, airTemperatureStmt, imageOverlayStmt]]

/-- All statements of the notebook in execution order. -/
def flatStmts : List Stmt := notebookCells.flatten

/-- Every file path loaded anywhere in the notebook, in execution order. -/
def allFileReads : List String := (flatStmts.map (fun s => s.fileReads)).flatten

/-- Every file path written anywhere in the notebook. -/
def allFileWrites : List String := (flatStmts.map (fun s => s.fileWrites)).flatten

/-- Sequential name resolution: threading the list of bound names from left to
right, every name a statement reads is already bound when it executes. -/
def runResolves : List String → List Stmt → Bool
  | _, [] => true
  | bound, s :: rest =>
      s.reads.all (fun n => bound.contains n) && runResolves (bound ++ s.binds) rest

/-- Statement-by-statement execution of the whole notebook from an empty
environment never reads an unbound name. -/
def noUndefinedReference : Bool := runResolves [] flatStmts

/-- Names a cell reads from the kernel environment: the reads of each of its
statements that no earlier statement of the same cell has bound. -/
def cellInputsAux : List String → List Stmt → List String
  | _, [] => []
  | bnd, s :: rest =>
      s.reads.filter (fun n => !(bnd.contains n)) ++ cellInputsAux (bnd ++ s.binds) rest

/-- The environment reads of one cell. -/
def cellInputs (c : List Stmt) : List String := cellInputsAux [] c

/-- Every name each cell reads from the environment is bound by a strictly
earlier cell of the sequence. -/
def cellsResolve : List String → List (List Stmt) → Bool
  | _, [] => true
  | bound, c :: rest =>
      (cellInputs c).all (fun n => bound.contains n)
        && cellsResolve (bound ++ (c.map (fun s => s.binds)).flatten) rest

/-- No cell of the notebook depends on a name bound only by a later cell. -/
def noForwardDependency : Bool := cellsResolve [] notebookCells

/-- The user-level names the claims single out. -/
def userNames : List String :=
  ["tiles", "cities", "population", "shapes", "referendum", "dataset",
   "air_temperature"]

/-- A statement with no conditional, no loop of any form (including a
comprehension) and no scheduling construct. -/
def stmtStraightLine (s : Stmt) : Bool :=
  !s.hasConditional && !s.hasForStmt && !s.hasWhileStmt && !s.hasComprehension
    && !s.spawnsThread

/-- Number of code cells of the notebook. -/
def numCells : Nat := notebookCells.length

/-- The `i`-th statement of the `c`-th code cell, if it exists. -/
def nthStmt (c i : Nat) : Option Stmt :=
  (notebookCells.get? c).bind fun cl => cl.get? i

/-- A kernel execution state: the current cell, the index of the next
statement within it, and the names bound so far. -/
structure ExecState where
  cell : Nat
  stmt : Nat
  env : List String
  deriving DecidableEq

/-- Single-step execution of the notebook: run the next statement of the
current cell, or move to the next cell once the current one is exhausted. -/
inductive Step : ExecState → ExecState → Prop where
  | exec (c i : Nat) (env : List String) (s : Stmt) (h : nthStmt c i = some s) :
      Step ⟨c, i, env⟩ ⟨c, i + 1, env ++ s.binds⟩
  | next (c i : Nat) (env : List String) (h : nthStmt c i = none)
      (hc : c < numCells) : Step ⟨c, i, env⟩ ⟨c + 1, 0, env⟩

/-- The step relation is deterministic: at most one successor state. -/
theorem Step.deterministic {a b b' : ExecState} (h1 : Step a b) (h2 : Step a b') :
    b = b' := by
  cases h1 with
  | exec c i env s hs =>
      cases h2 with
      | exec c2 i2 env2 s2 hs2 =>
          have hss : s = s2 := Option.some.inj (hs.symm.trans hs2)
          subst hss
          rfl
      | next c2 i2 env2 hn hc => rw [hs] at hn; cases hn
  | next c i env hn hc =>
      cases h2 with
      | exec c2 i2 env2 s2 hs2 => rw [hs2] at hn; cases hn
      | next => rfl

/-- A step stays within the current cell, or advances to the next cell only
when the current cell has no statement left. -/
theorem Step.cellOrder {a b : ExecState} (h : Step a b) :
    b.cell = a.cell ∨ (b.cell = a.cell + 1 ∧ nthStmt a.cell a.stmt = none) := by
  cases h with
  | exec c i env s hs => exact Or.inl rfl
  | next c i env hn hc => exact Or.inr ⟨rfl, hn⟩

/-- A record of the boundaries shapefile: its geometry (abstracted to an
identifier) and its attribute table. -/
structure ShapeRecord where
  geometry : String
  attributes : List (String × String)
  deriving DecidableEq

/-- A row of the referendum results table: a region code, the region name and
the leave vote share value. -/
structure RefRow where
  code : String
  name : String
  leaveVoteshare : Int
  deriving DecidableEq

/-- The first row of the referendum table whose region code equals `c`. -/
def findByCode (data : List RefRow) (c : String) : Option RefRow :=
  data.find? fun row => row.code == c

/-- Join of one shapefile record against the referendum table on the given key
field: look the record's key attribute up among the table's region codes. -/
def joinRecord (data : List RefRow) (key : String) (r : ShapeRecord) :
    ShapeRecord × Option RefRow :=
  (r, (r.attributes.lookup key).bind (findByCode data))

/-- Modelled from the spec: `gv.Shape.from_records`, geoviews library code that
is not included under src (only the notebook calling it is). Following the
spec, it walks the shapefile records in order and joins each one against the
tabular dataset on the region-code key field. -/
def from_records : List ShapeRecord → List RefRow → String → List (ShapeRecord × Option RefRow)
  | [], _, _ => []
  | r :: rest, data, key => joinRecord data key r :: from_records rest data key

/-- The join key the notebook's choropleth cell passes to
`gv.Shape.from_records` as the `on` argument. -/
def choroplethJoinKey : String := "code"

/-- The value field the notebook's choropleth cell selects. -/
def choroplethValueField : String := "leaveVoteshare"

/-- The index field the notebook's choropleth cell selects. -/
def choroplethIndexField : String := "name"

/-- Key dimensions declared in `population = gv.Dataset(cities, kdims=[...])`. -/
def populationKdims : List String := ["City", "Country", "Year"]

/-- Key dimensions declared in the `population.to(gv.Points, ...)` conversion. -/
def pointsKdims : List String := ["Longitude", "Latitude"]

/-- Value dimensions declared in the `population.to(gv.Points, ...)` conversion. -/
def pointsVdims : List String := ["Population", "City", "Country"]

/-- All distinct column names the notebook's cells declare as key or value
dimensions of the city-population table. -/
def declaredDims : List String := (populationKdims ++ pointsKdims ++ pointsVdims).dedup

/-- A loaded flat table, abstracted to its column names and whether it holds
at least one row. -/
structure CsvTable where
  columns : List String
  nonEmpty : Bool
  deriving DecidableEq

/-- Modelled from the spec: the table obtained by loading
`./assets/cities.csv`, a data file that is not included under src. The spec
describes it as a non-empty table of city population records with city,
country, year, coordinate and population columns. -/
def citiesCsv : CsvTable :=
  ⟨["City", "Country", "Year", "Longitude", "Latitude", "Population"], true⟩

/-- C1 counterexample: the notebook loads four input files, not three, so the
claim that its only file-based interfaces are three flat input files fails on
the actual load list. -/
theorem C1_counterexample :
    allFileReads.length = 4 ∧ (allFileReads.length == 3) = false :=
  ⟨rfl, rfl⟩

/-- C1 amended: the program's only file-based external interfaces are four
flat input files — the cities CSV, the boundaries shapefile, the referendum
CSV and the gridded raster file — each read by exactly one whole-file load
call, and no other file is read or written. -/
theorem C1_amended_theorem :
    allFileReads = ["./assets/cities.csv", "./assets/boundaries/boundaries.shp",
        "./assets/referendum.csv", "./sample-data/pre-industrial.nc"]
      ∧ allFileReads.dedup = allFileReads
      ∧ allFileWrites = [] :=
  ⟨rfl, by decide, rfl⟩

/-- C2: no statement of any cell writes a file, mutates a loaded dataset in
place, or prints console output: all inputs are consumed read-only and nothing
is persisted outside the kernel's in-memory environment. -/
theorem C2_theorem :
    flatStmts.all
      (fun s => s.fileWrites.isEmpty && !s.mutatesInPlace && !s.printsOutput) = true := by
  decide

/-- C3: every entry of the tiles dictionary is a tile-source value object
wrapping a URL template string — an http or https URL containing the zoom,
column and row placeholders. -/
theorem C3_theorem :
    tiles.all (fun kv => isUrlTemplate kv.2.url) = true := by
  decide

/-- C4: every name a cell reads from the kernel environment (in particular the
names tiles, cities, population, shapes, referendum, dataset and
air_temperature) is bound by a strictly earlier cell, and statement-by-
statement execution of the whole notebook never reads an unbound name: no
forward dependency exists. -/
theorem C4_theorem :
    noForwardDependency = true ∧ noUndefinedReference = true :=
  ⟨rfl, rfl⟩

/-- C5 counterexample: the tile-layout cell builds its NdLayout with a dict
comprehension, an iteration construct, so the claim that no cell contains any
loop construct or non-straight-line statement fails on that statement. -/
theorem C5_counterexample :
    flatStmts.all stmtStraightLine = false ∧ layoutStmt.hasComprehension = true :=
  ⟨rfl, rfl⟩

/-- C5 amended: no code cell contains a conditional, a for or while loop
statement, or a scheduling construct; the only iteration construct in the
notebook is the single dict comprehension expression of the tile-layout cell,
and every cell is otherwise a straight-line statement sequence. -/
theorem C5_amended_theorem :
    flatStmts.all
        (fun s => !s.hasConditional && !s.hasForStmt && !s.hasWhileStmt
          && !s.spawnsThread) = true
      ∧ flatStmts.filter (fun s => s.hasComprehension) = [layoutStmt] := by
  refine ⟨by decide, by decide⟩

/-- C6: loading the cities CSV yields a non-empty table whose columns are
exactly the names later cells declare as key and value dimensions: City,
Country, Year, Longitude, Latitude and Population. -/
theorem C6_theorem :
    citiesCsv.columns.all (fun c => declaredDims.contains c) = true
      ∧ declaredDims.all (fun c => citiesCsv.columns.contains c) = true
      ∧ citiesCsv.nonEmpty = true :=
  ⟨by decide, by decide, rfl⟩

/-- C7: the choropleth construction joins the referendum table against the
shapefile records on the region-code key: the join key at the call site is the
string code, and for every index the joined result pairs the record at that
index with the referendum row found by that record's code attribute. -/
theorem C7_theorem :
    choroplethJoinKey = "code"
      ∧ ∀ (records : List ShapeRecord) (data : List RefRow) (i : Nat),
          (from_records records data choroplethJoinKey).get? i
            = (records.get? i).map (joinRecord data choroplethJoinKey) := by
  refine ⟨rfl, ?_⟩
  intro records data i
  induction records generalizing i with
  | nil => cases i <;> rfl
  | cons r rest ih =>
      cases i with
      | zero => rfl
      | succ n => exact ih n

/-- C8: notebook execution is single-threaded and sequential: the step
relation is deterministic (one statement at a time), a step leaves the current
cell only after all its statements are exhausted, and no statement spawns a
thread or schedules concurrent work. -/
theorem C8_theorem :
    (∀ a b b' : ExecState, Step a b → Step a b' → b = b')
      ∧ (∀ a b : ExecState, Step a b →
          b.cell = a.cell ∨ (b.cell = a.cell + 1 ∧ nthStmt a.cell a.stmt = none))
      ∧ flatStmts.all (fun s => !s.spawnsThread) = true := by
  refine ⟨?_, ?_, rfl⟩
  · intro a b b' h1 h2
    exact Step.deterministic h1 h2
  · intro a b h
    exact Step.cellOrder h

/-- C8 witness: determinism and the cell-order property instantiated at the
first execution step of the notebook, which runs the import statement. -/
theorem C8_witness :
    (ExecState.mk 0 1 ([] ++ importsStmt.binds)
        = ExecState.mk 0 1 ([] ++ importsStmt.binds))
      ∧ ((ExecState.mk 0 1 ([] ++ importsStmt.binds)).cell
            = (ExecState.mk 0 0 []).cell
          ∨ ((ExecState.mk 0 1 ([] ++ importsStmt.binds)).cell
                = (ExecState.mk 0 0 []).cell + 1
              ∧ nthStmt (ExecState.mk 0 0 []).cell (ExecState.mk 0 0 []).stmt = none)) :=
  ⟨C8_theorem.1 ⟨0, 0, []⟩ _ _ (Step.exec 0 0 [] importsStmt rfl)
      (Step.exec 0 0 [] importsStmt rfl),
   C8_theorem.2.1 ⟨0, 0, []⟩ _ (Step.exec 0 0 [] importsStmt rfl)⟩

/-- C9: the tiles dictionary is built once with exactly the keys OpenMap,
ESRI, Wikipedia and Stamen Toner, no later statement rebinds or mutates it,
and the lookup of the Wikipedia key performed by the points-overlay cell
succeeds. -/
theorem C9_theorem :
    tiles.map (fun kv => kv.1) = ["OpenMap", "ESRI", "Wikipedia", "Stamen Toner"]
      ∧ tiles.lookup "Wikipedia" = some ⟨wikipediaUrl⟩
      ∧ (tiles.lookup "Wikipedia").isSome = true
      ∧ flatStmts.get? 2 = some tilesStmt
      ∧ (flatStmts.drop 3).all
          (fun s => !(s.binds.contains "tiles") && !s.mutatesInPlace) = true :=
  ⟨rfl, by decide, by decide, rfl, by decide⟩

/-- C10: each of the three URL templates constructed in the notebook contains
each of the Z, X and Y placeholders exactly once; the OpenMap and Wikipedia
templates order them Z then X then Y, while the ESRI template orders them Z
then Y then X. -/
theorem C10_theorem :
    countOccs "{Z}" openMapUrl = 1 ∧ countOccs "{X}" openMapUrl = 1
      ∧ countOccs "{Y}" openMapUrl = 1
      ∧ countOccs "{Z}" esriUrl = 1 ∧ countOccs "{X}" esriUrl = 1
      ∧ countOccs "{Y}" esriUrl = 1
      ∧ countOccs "{Z}" wikipediaUrl = 1 ∧ countOccs "{X}" wikipediaUrl = 1
      ∧ countOccs "{Y}" wikipediaUrl = 1
      ∧ beforeIn "{Z}" "{X}" openMapUrl = true
      ∧ beforeIn "{X}" "{Y}" openMapUrl = true
      ∧ beforeIn "{Z}" "{X}" wikipediaUrl = true
      ∧ beforeIn "{X}" "{Y}" wikipediaUrl = true
      ∧ beforeIn "{Z}" "{Y}" esriUrl = true
      ∧ beforeIn "{Y}" "{X}" esriUrl = true := by
  refine ⟨rfl, rfl, rfl, rfl, rfl, rfl, rfl, rfl, rfl, rfl, rfl, rfl, rfl, rfl, rfl⟩

end GVBokeh
